import Mathlib

/-!
Shallow embedding of `src/psx-core/src/gpu/gpu_context.rs` (the GPU emulation
core of a PlayStation emulator), together with proofs about it.

Machine integers are modelled as `Nat` (unsigned) and `Int` (signed), with
wrap-around made explicit where the source relies on it.  `f32` casts of small
integers are exact on the ranges considered here, so decoded vertex positions
are kept as `Int`.  Several method bodies in the source are kept as
commented-out code behind a `todo!()` stub; where a claim cites such a method,
the definition below translates the commented-out implementation at the cited
lines, and this is noted in its doc comment.  The rendering-device handles of
the source (device, queue, images, pipeline, synchronization futures) are
external capabilities and are not part of the embedded state.
-/

/-- A rectangular VRAM region `(x_range, y_range)`, each range half-open
`(start, end)`, mirroring `(Range<u32>, Range<u32>)` in the source. -/
abbrev Region : Type := (Nat × Nat) × (Nat × Nat)

/-- Reinterpretation of a `u32` value (a `Nat` below `2 ^ 32`) as an `i32`,
as Rust's `as i32` cast does. -/
def u32_as_i32 (n : Nat) : Int :=
  if n < 2 ^ 31 then (n : Int) else (n : Int) - 2 ^ 32

/-- Translation of `vertex_position_from_u32` (gpu_context.rs lines 51-59).
The source returns `[x as f32, y as f32]`; the two `i32` values are returned
directly here, the `f32` cast being exact for every value this function can
produce (all results lie in `[-1024, 1023]`). -/
def vertex_position_from_u32 (position : Nat) : Int × Int :=
  let x := position &&& 0x7ff
  let sign_extend_x := 0xfffff800 * ((x >>> 10) &&& 1)
  let x' := u32_as_i32 (x ||| sign_extend_x)
  let y := (position >>> 16) &&& 0x7ff
  let sign_extend_y := 0xfffff800 * ((y >>> 10) &&& 1)
  let y' := u32_as_i32 (y ||| sign_extend_y)
  (x', y')

/-- The 11-bit field encoding of a signed value, as the spec describes it:
`v` masked to its low 11 bits (two's complement). -/
def encode11 (v : Int) : Nat := (v % 2048).toNat

/-- Translation of struct `DrawingTextureParams` (gpu_context.rs
lines 118-126).  The `u8` fields are modelled as `Nat`; every value stored by
the decoders below fits in 2 bits. -/
structure DrawingTextureParams where
  clut_base : Nat × Nat
  tex_page_base : Nat × Nat
  semi_transparency_mode : Nat
  tex_page_color_mode : Nat
  texture_disable : Bool
  texture_flip : Bool × Bool

/-- Translation of `DrawingTextureParams::tex_page_from_gpustat`
(gpu_context.rs lines 133-141). -/
def tex_page_from_gpustat (p : DrawingTextureParams) (param : Nat) :
    DrawingTextureParams :=
  let x := param &&& 0xF
  let y := (param >>> 4) &&& 1
  { p with
    tex_page_base := (x * 64, y * 256)
    semi_transparency_mode := (param >>> 5) &&& 3
    tex_page_color_mode := (param >>> 7) &&& 3
    texture_disable := (param >>> 11) &&& 1 == 1 }

/-- Translation of `DrawingTextureParams::tex_page_from_u32`
(gpu_context.rs lines 146-149). -/
def tex_page_from_u32 (p : DrawingTextureParams) (param : Nat) :
    DrawingTextureParams :=
  tex_page_from_gpustat p (param >>> 16)

/-- Translation of `GpuContext::update_gpu_stat_from_texture_params`
(gpu_context.rs lines 564-573), acting on the status word itself: it defines
the status-register layout of the texture-page fields.  The source's
`&= !0x81FF` is the 32-bit complement mask `0xFFFF7E00`. -/
def update_gpu_stat_from_texture_params (stat : Nat)
    (texture_params : DrawingTextureParams) : Nat :=
  let x := (texture_params.tex_page_base.1 / 64) &&& 0xF
  let y := (texture_params.tex_page_base.2 / 256) &&& 1
  ((((stat &&& 0xFFFF7E00 ||| x) ||| (y <<< 4)) |||
      (texture_params.semi_transparency_mode <<< 5)) |||
    (texture_params.tex_page_color_mode <<< 7)) |||
    ((if texture_params.texture_disable then 1 else 0) <<< 15)

/-- Translation of struct `DrawingVertex` (gpu_context.rs lines 61-66).
The source stores `f32` position and color; the position is kept as the exact
`Int` pair produced by `vertex_position_from_u32` and the color as the raw
8-bit channels before the `/ 255.0` normalization, which no claim inspects. -/
structure DrawingVertex where
  position : Int × Int
  color : Nat × Nat × Nat
  tex_coord : Nat × Nat

/-- VRAM pixel memory as a map from linear address to 16-bit pixel value,
mirroring the buffer behind `Vram` (gpu_context.rs lines 165-181); the
address arithmetic below is exactly the source's `y * 1024 + x_range.start`. -/
abbrev VramData : Type := Nat → Nat

/-- The inner loop of `Vram::write_block` (gpu_context.rs lines 193-199):
writes the pixels of `row` at consecutive addresses starting at `pos`. -/
def writeRow (data : VramData) (pos : Nat) : List Nat → VramData
  | [] => data
  | p :: rest => writeRow (Function.update data pos p) (pos + 1) rest

/-- The row loop of `Vram::write_block` (commented-out body behind the
`todo!()` stub, gpu_context.rs lines 184-202): starting at row `y`, writes
`h` rows of width `w` at x-offset `xs`, consuming `block` row-major. -/
def write_rows (data : VramData) (xs w y h : Nat) (block : List Nat) :
    VramData :=
  match h with
  | 0 => data
  | h' + 1 =>
      write_rows (writeRow data (y * 1024 + xs) (block.take w)) xs w (y + 1) h'
        (block.drop w)

/-- Translation of `Vram::write_block` (commented-out body behind the
`todo!()` stub, gpu_context.rs lines 184-202).  The source's
`assert_eq!(block.len(), whole_size)` is carried as a hypothesis of the
round-trip theorem below. -/
def write_block (data : VramData) (r : Region) (block : List Nat) : VramData :=
  write_rows data r.1.1 (r.1.2 - r.1.1) r.2.1 (r.2.2 - r.2.1) block

/-- Reading `w` pixels at consecutive addresses starting at `pos`: one row of
`Vram::read_block` (gpu_context.rs lines 221-226). -/
def readRow (data : VramData) (pos : Nat) : Nat → List Nat
  | 0 => []
  | w + 1 => data pos :: readRow data (pos + 1) w

/-- The row loop of `Vram::read_block`: rows `y, …, y + h - 1` read
top-to-bottom, or bottom-to-top when `reverse` is set (gpu_context.rs
lines 215-226). -/
def read_rows (data : VramData) (xs w y h : Nat) (reverse : Bool) :
    List Nat :=
  match h, reverse with
  | 0, _ => []
  | h' + 1, true =>
      read_rows data xs w (y + 1) h' true ++ readRow data (y * 1024 + xs) w
  | h' + 1, false =>
      readRow data (y * 1024 + xs) w ++ read_rows data xs w (y + 1) h' false

/-- Translation of `Vram::read_block` (commented-out body behind the
`todo!()` stub, gpu_context.rs lines 205-231). -/
def read_block (data : VramData) (r : Region) (reverse : Bool) : List Nat :=
  read_rows data r.1.1 (r.1.2 - r.1.1) r.2.1 (r.2.2 - r.2.1) reverse

/-- Translation of the nested fn `range_overlap` inside
`GpuContext::add_to_rendering_range` (gpu_context.rs lines 663-675):
open-interval intersection test on both axes. -/
def range_overlap (r1 r2 : Region) : Bool :=
  if r1.1.1 ≥ r2.1.2 ∨ r2.1.1 ≥ r1.1.2 then false
  else if r1.2.1 ≥ r2.2.2 ∨ r2.2.1 ≥ r1.2.2 then false
  else true

/-- Two regions intersect when some x coordinate lies in both x ranges and
some y coordinate lies in both y ranges. -/
def regions_intersect (r1 r2 : Region) : Prop :=
  (∃ x, r1.1.1 ≤ x ∧ x < r1.1.2 ∧ r2.1.1 ≤ x ∧ x < r2.1.2) ∧
    (∃ y, r1.2.1 ≤ y ∧ y < r1.2.2 ∧ r2.2.1 ≤ y ∧ y < r2.2.2)

/-- Translation of `GpuContext::add_to_rendering_range` (commented-out body
behind the `todo!()` stub, gpu_context.rs lines 661-698), restricted to its
effect on the tracked set `ranges_in_rendering`: if the region is already
tracked the call is a no-op; otherwise every overlapping tracked region is
evicted (removed, after its pixels are written back to VRAM) and the new
region is appended. -/
def add_to_rendering_range (ranges : List Region) (new_range : Region) :
    List Region :=
  if new_range ∈ ranges then ranges
  else
    ranges.filter (fun range => !range_overlap range new_range) ++ [new_range]

/-- The `GpuContext` state visible to this embedding (gpu_context.rs
lines 234-275): the hardware-register shadow fields, the VRAM array, and the
tracked rendering-region set (`ranges_in_rendering`, kept in the source as a
commented-out field).  The rendering-device handles are external and are not
part of the state. -/
structure GpuState where
  gpu_stat : Nat
  allow_texture_disable : Bool
  textured_rect_flip : Bool × Bool
  gpu_read : Option Nat
  vram : VramData
  drawing_area_top_left : Nat × Nat
  drawing_area_bottom_right : Nat × Nat
  drawing_offset : Int × Int
  texture_window_mask : Nat × Nat
  texture_window_offset : Nat × Nat
  vram_display_area_start : Nat × Nat
  display_horizontal_range : Nat × Nat
  display_vertical_range : Nat × Nat
  cached_gp0_e2 : Nat
  cached_gp0_e3 : Nat
  cached_gp0_e4 : Nat
  cached_gp0_e5 : Nat
  ranges_in_rendering : List Region

/-- Translation of `GpuContext::read_vram_block` (gpu_context.rs
lines 786-836): the only live statement of the body is
`vec![0; block_range.0.len() * block_range.1.len()]` (everything else is
commented out), so the method returns a zero-filled block and touches no
state. -/
def read_vram_block (s : GpuState) (block_range : Region) :
    List Nat × GpuState :=
  (List.replicate
    ((block_range.1.2 - block_range.1.1) *
      (block_range.2.2 - block_range.2.1)) 0, s)

/-- Translation of `GpuContext::write_vram_block` (gpu_context.rs
lines 731-784): the entire body, including its former `todo!()`, is commented
out, so the method does nothing and returns normally. -/
def write_vram_block (s : GpuState) (block_range : Region)
    (block : List Nat) : GpuState :=
  s

/-- Translation of `GpuContext::draw_polygon` (gpu_context.rs lines 887-959),
restricted to the embedded state: the live body runs `assert!(!textured)` and
then only submits device work (vertex buffer, render pass, future chaining),
which touches none of the embedded fields.  A fired assertion is modelled as
`Except.error`. -/
def draw_polygon (s : GpuState) (vertices : List DrawingVertex)
    (texture_params : DrawingTextureParams)
    (textured texture_blending semi_transparent : Bool) :
    Except String GpuState :=
  if textured then Except.error "assertion failed: !textured"
  else Except.ok s

/-- Translation of the source-rectangle computation of
`GpuContext::blit_to_front` (gpu_context.rs lines 1067-1076), returning the
two source corners passed to `blit_image` (lines 1090-1093).  The
`horizontal_resolution()` and `vertical_resolution()` accessors of `GpuStat`
live outside this file (in `super::GpuStat`); their values are taken here as
the parameters `hres` and `vres`. -/
def blit_source_rect (s : GpuState) (full_vram : Bool) (hres vres : Nat) :
    (Int × Int) × (Int × Int) :=
  if full_vram then ((0, 0), (1024, 512))
  else
    (((s.vram_display_area_start.1 : Int),
        (s.vram_display_area_start.2 : Int)),
      ((hres : Int), (vres : Int)))

/-- Modelled from the spec: the intended presentation source rectangle,
"either the full 1024×512 surface or `(display_start, horizontal_resolution
× vertical_resolution)`" (spec §4.6), written as its two corners: it is
positioned at `vram_display_area_start` and extends by `hres × vres`. -/
def blit_source_rect_spec (s : GpuState) (full_vram : Bool)
    (hres vres : Nat) : (Int × Int) × (Int × Int) :=
  if full_vram then ((0, 0), (1024, 512))
  else
    (((s.vram_display_area_start.1 : Int),
        (s.vram_display_area_start.2 : Int)),
      (((s.vram_display_area_start.1 + hres : Nat) : Int),
        ((s.vram_display_area_start.2 + vres : Nat) : Int)))

/-- A concrete `GpuState` whose display area starts at `(320, 16)`; every
other field is zero or empty. -/
def display_state : GpuState where
  gpu_stat := 0
  allow_texture_disable := false
  textured_rect_flip := (false, false)
  gpu_read := none
  vram := fun _ => 0
  drawing_area_top_left := (0, 0)
  drawing_area_bottom_right := (0, 0)
  drawing_offset := (0, 0)
  texture_window_mask := (0, 0)
  texture_window_offset := (0, 0)
  vram_display_area_start := (320, 16)
  display_horizontal_range := (0, 0)
  display_vertical_range := (0, 0)
  cached_gp0_e2 := 0
  cached_gp0_e3 := 0
  cached_gp0_e4 := 0
  cached_gp0_e5 := 0
  ranges_in_rendering := []

/-- Translation of `GpuContext::fill_color` (commented-out body behind the
`todo!()` stub, gpu_context.rs lines 838-879), restricted to the rectangles
it fills with the requested color: each wrap-split recursive call contributes
its final `block_range` (on the VRAM path the fill writes the color into
every cell of `block_range` via `write_block`). -/
def fill_color_ranges (top_left : Nat × Nat) (size : Nat × Nat) :
    List Region :=
  (if _h : 1024 ≤ top_left.1 + size.1 then
      fill_color_ranges (0, top_left.2)
        (top_left.1 + size.1 - 1024 + 1, size.2)
    else []) ++
    (if _h : 512 ≤ top_left.2 + size.2 then
        fill_color_ranges (top_left.1, 0)
          (size.1, top_left.2 + size.2 - 512 + 1)
      else []) ++
    [((top_left.1,
        if 1024 ≤ top_left.1 + size.1 then 1023 else top_left.1 + size.1),
      (top_left.2,
        if 512 ≤ top_left.2 + size.2 then 511 else top_left.2 + size.2))]
termination_by (top_left.1 + size.1, top_left.2 + size.2)
decreasing_by
  · simp_wf
    apply Prod.Lex.left
    omega
  · simp_wf
    apply Prod.Lex.right
    omega

/-- Whether the pixel `p` lies inside the region `r`. -/
def region_covers (r : Region) (p : Nat × Nat) : Bool :=
  decide (r.1.1 ≤ p.1) && decide (p.1 < r.1.2) && decide (r.2.1 ≤ p.2) &&
    decide (p.2 < r.2.2)

set_option maxRecDepth 8192 in
/-- Helper for C3: the round-trip, checked over all 2048 encodable values,
enumerated as `a * 128 + b` to keep the reduction shallow. -/
theorem vertex_position_roundtrip_aux :
    ∀ a, a < 16 → ∀ b, b < 128 →
      vertex_position_from_u32
          (encode11 (((a * 128 + b : Nat) : Int) - 1024) |||
            (encode11 (((a * 128 + b : Nat) : Int) - 1024) <<< 16)) =
        (((a * 128 + b : Nat) : Int) - 1024,
          ((a * 128 + b : Nat) : Int) - 1024) := by
  decide

/-- C3: for every signed `v` in `[-1024, 1023]`, writing `v` masked to 11 bits
into both the low field and the field at bit 16 of a 32-bit word and decoding
with `vertex_position_from_u32` returns `(v, v)`: the decoder sign-extends
each 11-bit field using bit 10 as the sign bit, so the round-trip is the
identity on `[-1024, 1023]`. -/
theorem vertex_position_roundtrip (v : Int) (h1 : -1024 ≤ v) (h2 : v ≤ 1023) :
    vertex_position_from_u32 (encode11 v ||| (encode11 v <<< 16)) = (v, v) := by
  have ha : (v + 1024).toNat / 128 < 16 := by omega
  have hb : (v + 1024).toNat % 128 < 128 := Nat.mod_lt _ (by omega)
  have h := vertex_position_roundtrip_aux ((v + 1024).toNat / 128) ha
    ((v + 1024).toNat % 128) hb
  have hv : (((v + 1024).toNat / 128 * 128 + (v + 1024).toNat % 128 : Nat) :
      Int) - 1024 = v := by omega
  rw [hv] at h
  exact h

/-- Witness for C3 at the concrete input `v = -7`. -/
theorem vertex_position_roundtrip_witness :
    (-1024 ≤ (-7 : Int) ∧ (-7 : Int) ≤ 1023) ∧
      vertex_position_from_u32 (encode11 (-7) ||| (encode11 (-7) <<< 16)) =
        (-7, -7) :=
  ⟨⟨by decide, by decide⟩,
    vertex_position_roundtrip (-7) (by decide) (by decide)⟩

/-- The field equations of `tex_page_from_gpustat`: `tex_page_base` is
`((w &&& 0xF) * 64, ((w >>> 4) &&& 1) * 256)` (bits 0-3 and bit 4), the
semi-transparency mode is bits 5-6, the color mode is bits 7-8, and
`texture_disable` is bit 11 of `w` — the command-form position of that flag,
not the status-register one. -/
theorem tex_page_from_gpustat_fields (p : DrawingTextureParams) (w : Nat) :
    (tex_page_from_gpustat p w).tex_page_base =
        ((w % 16) * 64, (w / 16 % 2) * 256) ∧
      (tex_page_from_gpustat p w).semi_transparency_mode = w / 32 % 4 ∧
      (tex_page_from_gpustat p w).tex_page_color_mode = w / 128 % 4 ∧
      (tex_page_from_gpustat p w).texture_disable = (w / 2048 % 2 == 1) := by
  have h15 : ∀ a : Nat, a &&& 15 = a % 16 := fun a =>
    Nat.and_pow_two_sub_one_eq_mod a 4
  have h3 : ∀ a : Nat, a &&& 3 = a % 4 := fun a =>
    Nat.and_pow_two_sub_one_eq_mod a 2
  refine ⟨?_, ?_, ?_, ?_⟩ <;>
    simp [tex_page_from_gpustat, Nat.shiftRight_eq_div_pow, h15, h3,
      Nat.and_one_is_mod]

/-- C4: the decoder does not read `texture_disable` at its status-register
position, although the claim requires every field to sit at the
status-register layout positions: `update_gpu_stat_from_texture_params`
stores the disable flag at bit 15 (with every other field zero, the status
word for a disabled-texture parameter set is exactly `0x8000`), yet decoding
that very status word yields `texture_disable = false`, while a word with
only bit 11 set decodes to `texture_disable = true`. -/
theorem texture_disable_status_bit_mismatch :
    update_gpu_stat_from_texture_params 0
        ⟨(0, 0), (0, 0), 0, 0, true, (false, false)⟩ = 0x8000 ∧
      (tex_page_from_gpustat ⟨(0, 0), (0, 0), 0, 0, false, (false, false)⟩
          0x8000).texture_disable = false ∧
      (tex_page_from_gpustat ⟨(0, 0), (0, 0), 0, 0, false, (false, false)⟩
          0x800).texture_disable = true := by
  refine ⟨rfl, rfl, rfl⟩

/-- C5: the command-form decode equals the status-register-form decode applied
to the upper 16 bits of the command word, for every word and every starting
parameter value. -/
theorem tex_page_from_u32_eq_gpustat_high (p : DrawingTextureParams)
    (w : Nat) :
    tex_page_from_u32 p w = tex_page_from_gpustat p (w >>> 16) := rfl

/-- Addresses below the write position are untouched by `writeRow`. -/
theorem writeRow_lt (row : List Nat) :
    ∀ (data : VramData) (pos p : Nat), p < pos →
      writeRow data pos row p = data p := by
  induction row with
  | nil => intro data pos p _; rfl
  | cons a rest ih =>
      intro data pos p hp
      simp only [writeRow]
      rw [ih (Function.update data pos a) (pos + 1) p (by omega)]
      have hne : p ≠ pos := by omega
      exact Function.update_noteq hne a data

/-- Reading a row back immediately after writing it returns the row. -/
theorem readRow_writeRow (row : List Nat) :
    ∀ (data : VramData) (pos : Nat),
      readRow (writeRow data pos row) pos row.length = row := by
  induction row with
  | nil => intro data pos; rfl
  | cons a rest ih =>
      intro data pos
      simp only [writeRow, List.length_cons, readRow]
      rw [writeRow_lt rest (Function.update data pos a) (pos + 1) pos
        (by omega)]
      rw [Function.update_same, ih]

/-- `readRow` only depends on the addresses it reads. -/
theorem readRow_congr (w : Nat) :
    ∀ (d1 d2 : VramData) (pos : Nat),
      (∀ i, i < w → d1 (pos + i) = d2 (pos + i)) →
      readRow d1 pos w = readRow d2 pos w := by
  induction w with
  | zero => intro d1 d2 pos _; rfl
  | succ w' ih =>
      intro d1 d2 pos h
      have h0 := h 0 (Nat.succ_pos w')
      simp only [Nat.add_zero] at h0
      simp only [readRow, h0]
      refine congrArg _ (ih d1 d2 (pos + 1) fun i hi => ?_)
      have e : pos + 1 + i = pos + (i + 1) := by omega
      rw [e]
      exact h (i + 1) (by omega)

/-- Addresses below the first written address are untouched by
`write_rows`. -/
theorem write_rows_lt (xs w h : Nat) :
    ∀ (data : VramData) (y : Nat) (block : List Nat) (p : Nat),
      p < y * 1024 + xs →
      write_rows data xs w y h block p = data p := by
  induction h with
  | zero => intro data y block p _; rfl
  | succ h' ih =>
      intro data y block p hp
      simp only [write_rows]
      rw [ih (writeRow data (y * 1024 + xs) (block.take w)) (y + 1)
        (block.drop w) p (by omega)]
      exact writeRow_lt (block.take w) data (y * 1024 + xs) p hp

/-- Writing a block row-major and reading it back in row order returns the
block, provided the rows fit inside the 1024-pixel VRAM row. -/
theorem read_rows_write_rows (w h : Nat) :
    ∀ (data : VramData) (xs y : Nat) (block : List Nat),
      xs + w ≤ 1024 → block.length = w * h →
      read_rows (write_rows data xs w y h block) xs w y h false = block := by
  induction h with
  | zero =>
      intro data xs y block _ hlen
      have hl0 : block.length = 0 := by omega
      rw [List.eq_nil_of_length_eq_zero hl0]
      rfl
  | succ h' ih =>
      intro data xs y block hb hlen
      rw [Nat.mul_succ] at hlen
      have htake : (block.take w).length = w := by
        simp only [List.length_take]
        omega
      simp only [write_rows, read_rows]
      have hrow :
          readRow (write_rows (writeRow data (y * 1024 + xs) (block.take w))
              xs w (y + 1) h' (block.drop w)) (y * 1024 + xs) w =
            block.take w := by
        rw [readRow_congr w _
          (writeRow data (y * 1024 + xs) (block.take w)) (y * 1024 + xs)
          (fun i hi =>
            write_rows_lt xs w h'
              (writeRow data (y * 1024 + xs) (block.take w)) (y + 1)
              (block.drop w) (y * 1024 + xs + i) (by omega))]
        have hr := readRow_writeRow (block.take w) data (y * 1024 + xs)
        rwa [htake] at hr
      rw [hrow]
      rw [ih (writeRow data (y * 1024 + xs) (block.take w)) xs (y + 1)
        (block.drop w) hb (by simp only [List.length_drop]; omega)]
      exact List.take_append_drop w block

/-- C2: for every region with x range inside `[0, 1024)` and y range inside
`[0, 512)`, and every pixel list `P` whose length is the region's width times
its height, `write_block` followed by `read_block` with `reverse = false`
returns exactly `P`. -/
theorem write_block_read_block_roundtrip (data : VramData) (r : Region)
    (P : List Nat) (hx0 : r.1.1 ≤ r.1.2) (hx : r.1.2 ≤ 1024)
    (hy0 : r.2.1 ≤ r.2.2) (hy : r.2.2 ≤ 512)
    (hlen : P.length = (r.1.2 - r.1.1) * (r.2.2 - r.2.1)) :
    read_block (write_block data r P) r false = P :=
  read_rows_write_rows (r.1.2 - r.1.1) (r.2.2 - r.2.1) data r.1.1 r.2.1 P
    (by omega) hlen

/-- Witness for C2: region x range `[1, 3)`, y range `[0, 2)`, four pixels. -/
theorem write_block_read_block_roundtrip_witness :
    ((1 : Nat) ≤ 3 ∧ (3 : Nat) ≤ 1024 ∧ (0 : Nat) ≤ 2 ∧ (2 : Nat) ≤ 512 ∧
        ([10, 20, 30, 40] : List Nat).length = (3 - 1) * (2 - 0)) ∧
      read_block (write_block (fun _ => 0) ((1, 3), (0, 2)) [10, 20, 30, 40])
          ((1, 3), (0, 2)) false = [10, 20, 30, 40] :=
  ⟨⟨by decide, by decide, by decide, by decide, by decide⟩,
    write_block_read_block_roundtrip (fun _ => 0) ((1, 3), (0, 2))
      [10, 20, 30, 40] (by decide) (by decide) (by decide) (by decide)
      (by decide)⟩

/-- When the source's overlap test is false, the two regions have no common
point: being left/right or above/below each other on an axis rules out a
shared coordinate on that axis. -/
theorem not_intersect_of_overlap_false (r1 r2 : Region)
    (h : range_overlap r1 r2 = false) : ¬ regions_intersect r1 r2 := by
  rintro ⟨⟨x, hx1, hx2, hx3, hx4⟩, ⟨y, hy1, hy2, hy3, hy4⟩⟩
  simp only [range_overlap] at h
  split at h
  · omega
  · split at h
    · omega
    · exact Bool.noConfusion h

/-- `regions_intersect` is symmetric. -/
theorem regions_intersect_symm (r1 r2 : Region)
    (h : regions_intersect r1 r2) : regions_intersect r2 r1 := by
  obtain ⟨⟨x, hx1, hx2, hx3, hx4⟩, ⟨y, hy1, hy2, hy3, hy4⟩⟩ := h
  exact ⟨⟨x, hx3, hx4, hx1, hx2⟩, ⟨y, hy3, hy4, hy1, hy2⟩⟩

/-- Helper for C1: one `add_to_rendering_range` call preserves pairwise
non-intersection of the tracked set. -/
theorem add_to_rendering_range_preserves (ranges : List Region) (r : Region)
    (h : ranges.Pairwise
      (fun a b => ¬ regions_intersect a b ∧ ¬ regions_intersect b a)) :
    (add_to_rendering_range ranges r).Pairwise
      (fun a b => ¬ regions_intersect a b ∧ ¬ regions_intersect b a) := by
  unfold add_to_rendering_range
  split
  · exact h
  · rw [List.pairwise_append]
    refine ⟨h.filter _, List.pairwise_singleton _ _, ?_⟩
    intro a ha b hb
    rw [List.mem_singleton] at hb
    rw [hb]
    have hmem := List.of_mem_filter ha
    have hov : range_overlap a r = false := by
      simpa using hmem
    have hni := not_intersect_of_overlap_false a r hov
    exact ⟨hni, fun hri => hni (regions_intersect_symm r a hri)⟩

/-- C1: after any sequence of `add_to_rendering_range` calls starting from
the empty tracked set, the tracked set is pairwise non-overlapping: no two
distinct tracked regions intersect in both their x and y ranges. -/
theorem add_to_rendering_range_pairwise_disjoint (rs : List Region) :
    (rs.foldl add_to_rendering_range []).Pairwise
      (fun a b => ¬ regions_intersect a b ∧ ¬ regions_intersect b a) := by
  have general :
      ∀ (rs' : List Region) (init : List Region),
        init.Pairwise
          (fun a b => ¬ regions_intersect a b ∧ ¬ regions_intersect b a) →
        (rs'.foldl add_to_rendering_range init).Pairwise
          (fun a b => ¬ regions_intersect a b ∧ ¬ regions_intersect b a) := by
    intro rs'
    induction rs' with
    | nil => intro init h; exact h
    | cons r rest ih =>
        intro init h
        exact ih (add_to_rendering_range init r)
          (add_to_rendering_range_preserves init r h)
  exact general rs [] List.Pairwise.nil

/-- C6: `draw_polygon` with `textured = true` fails with the fatal assertion
for every input; with `textured = false` the assertion does not fire and the
call returns normally. -/
theorem draw_polygon_textured_assert (s : GpuState)
    (vertices : List DrawingVertex) (tp : DrawingTextureParams)
    (tb st : Bool) :
    draw_polygon s vertices tp true tb st =
        Except.error "assertion failed: !textured" ∧
      draw_polygon s vertices tp false tb st = Except.ok s :=
  ⟨rfl, rfl⟩

/-- The corner pair `blit_to_front` passes to `blit_image`: `(0, 0)` and
`(1024, 512)` when `full_vram` is set, otherwise the display-area start and
`(hres, vres)` — the resolution pair used as a corner, not as an extent. -/
theorem blit_to_front_source_rect (s : GpuState) (hres vres : Nat) :
    blit_source_rect s true hres vres = ((0, 0), (1024, 512)) ∧
      blit_source_rect s false hres vres =
        (((s.vram_display_area_start.1 : Int),
            (s.vram_display_area_start.2 : Int)),
          ((hres : Int), (vres : Int))) :=
  ⟨rfl, rfl⟩

/-- C7: the rectangle the code copies is not the display-start `hres × vres`
rectangle the claim describes.  With the display area starting at `(320, 16)`
and resolutions `640 × 240`, the code hands `blit_image` the source corners
`(320, 16)` and `(640, 240)` — a `320 × 224` rectangle — while the claimed
source rectangle has corners `(320, 16)` and `(960, 256)`. -/
theorem blit_to_front_display_rect_mismatch :
    blit_source_rect display_state false 640 240 =
        ((320, 16), (640, 240)) ∧
      blit_source_rect_spec display_state false 640 240 =
        ((320, 16), (960, 256)) ∧
      blit_source_rect display_state false 640 240 ≠
        blit_source_rect_spec display_state false 640 240 := by
  refine ⟨rfl, rfl, ?_⟩
  decide

/-- C9: `read_vram_block` returns a vector of length width times height all
of whose elements are `0`, for every state (hence regardless of any prior
writes), and leaves the `GpuContext` state unchanged. -/
theorem read_vram_block_zeros (s : GpuState) (r : Region) :
    (read_vram_block s r).1.length = (r.1.2 - r.1.1) * (r.2.2 - r.2.1) ∧
      (read_vram_block s r).1.all (fun v => v == 0) = true ∧
      (read_vram_block s r).2 = s := by
  refine ⟨List.length_replicate _ _, ?_, rfl⟩
  simp [read_vram_block, List.all_eq_true, List.mem_replicate]

/-- C10: `write_vram_block` returns normally (the model is total) and leaves
every field of the state, including the VRAM contents, unchanged. -/
theorem write_vram_block_noop (s : GpuState) (r : Region)
    (block : List Nat) :
    write_vram_block s r block = s := rfl

/-- C8: evaluating the (commented-out) `fill_color` at `top_left = (1020, 0)`,
`size = (8, 1)`: the filled rectangles are `[0, 5) × [0, 1)` and
`[1020, 1023) × [0, 1)`; the pixel `(1023, 0)`, which the claim requires to
be filled, is covered by none of them, while the pixel `(4, 0)`, which the
claim excludes, is covered. -/
theorem fill_color_wrap_divergence :
    fill_color_ranges (1020, 0) (8, 1) =
        [((0, 5), (0, 1)), ((1020, 1023), (0, 1))] ∧
      (fill_color_ranges (1020, 0) (8, 1)).all
          (fun r => !region_covers r (1023, 0)) = true ∧
      (fill_color_ranges (1020, 0) (8, 1)).any
          (fun r => region_covers r (4, 0)) = true := by
  have hev : fill_color_ranges (1020, 0) (8, 1) =
      [((0, 5), (0, 1)), ((1020, 1023), (0, 1))] := by
    rw [fill_color_ranges, fill_color_ranges]
    norm_num
  refine ⟨hev, ?_, ?_⟩ <;> rw [hev] <;> decide
